import Mathlib

/-!
Shallow embedding of `src/interop/src/lib.rs` (devnatan/docker-kotlin interop
library): an FFI gateway exposing DNS resolution, HTTP request execution, a
unix-socket connect probe, and the matching deallocation entry points.

Modelling conventions:
* a `*const c_char` input is an `Option String`: `none` models a byte
  sequence rejected by `CStr::to_str` (invalid UTF-8); a decoded string
  otherwise.  Nullable output strings are likewise `Option String`
  (`none` = null pointer).
* the collaborator libraries (std IP-address parsing, hickory resolver,
  tokio runtime construction, reqwest client) are modelled as an explicit
  environment record: each call site in the source becomes a field lookup,
  so every control-flow branch of the source is preserved.
* `CString::new` failure (embedded NUL byte) is `hasNullByte`.
* the deallocation entry points are modelled by the sequence of
  deallocation actions they perform.
-/

/-- IP address produced by std's `str::parse::<IpAddr>` (collaborator). -/
inductive IpAddr
  | v4 (a b c d : Nat)
  | v6 (segments : List Nat)
deriving DecidableEq, Repr

/-- Transport protocol of a hickory `NameServerConfig`. -/
inductive Protocol
  | Udp
  | Tcp
deriving DecidableEq, Repr

/-- Embedding of hickory's `NameServerConfig` as constructed by `dns_resolve`
(`socket_addr` is the (ip, port) pair). -/
structure NameServerConfig where
  socket_addr : IpAddr × Nat
  protocol : Protocol
  tls_dns_name : Option String
  trust_negative_responses : Bool
  bind_addr : Option (IpAddr × Nat)
deriving DecidableEq, Repr

/-- Resolver options; the source only ever constructs `ResolverOpts::default()`. -/
inductive ResolverOpts
  | default
deriving DecidableEq, Repr

/-- Which resolver the source constructs: the system-configured one
(`tokio_from_system_conf`) or a custom configuration built from the
caller-supplied nameservers (`TokioAsyncResolver::tokio(config, opts)`). -/
inductive ResolverSpec
  | systemConf
  | custom (config : List NameServerConfig) (opts : ResolverOpts)
deriving DecidableEq, Repr

/-- The `DnsResult` result envelope (`addresses` is the nullable array of
address strings, `count` its length, `error` the nullable error string). -/
structure DnsResult where
  addresses : Option (List String)
  count : Nat
  error : Option String
deriving DecidableEq, Repr

/-- Source `create_dns_error`: null payload, zero count, owned error string. -/
def create_dns_error (message : String) : DnsResult :=
  { addresses := none, count := 0, error := some message }

/-- Environment for the DNS operations: outcomes of every collaborator call
the source makes (std IP parsing, runtime construction, system resolver
construction, and the forward lookup of a hostname on a given resolver,
returning the display strings of the found records). -/
structure DnsEnv where
  parseIp : String → Option IpAddr
  runtimeOk : Bool
  systemConf : Except String Unit
  lookup_ip : ResolverSpec → String → Except String (List String)

/-- The `NameServerConfig` literal built inside `dns_resolve`
line-for-line: port 53, UDP, no TLS name, trust negative responses, no
bind address. -/
def nameServerFor (ip : IpAddr) : NameServerConfig :=
  { socket_addr := (ip, 53)
    protocol := Protocol.Udp
    tls_dns_name := none
    trust_negative_responses := true
    bind_addr := none }

/-- The `dns_server_ips` vector of `dns_resolve`: when the count is
non-zero, decode each entry and parse it as an IP, silently dropping
entries that fail either step (`filter_map`); otherwise the empty vector.
The list argument models the `dns_servers_count` pointers. -/
def dnsServerIps (env : DnsEnv) (dns_servers : List (Option String)) : List IpAddr :=
  if dns_servers.length > 0 then
    dns_servers.filterMap (fun s => s.bind env.parseIp)
  else []

/-- Resolver selection of `dns_resolve`: system configuration when no IP
parsed, otherwise a fresh config holding exactly the parsed nameservers
with default options. -/
def resolverChoice (env : DnsEnv) (ips : List IpAddr) : Except String ResolverSpec :=
  if ips.isEmpty then
    match env.systemConf with
    | Except.ok _ => Except.ok ResolverSpec.systemConf
    | Except.error e => Except.error e
  else
    Except.ok (ResolverSpec.custom (ips.map nameServerFor) ResolverOpts.default)

/-- Shared tail of both DNS entry points: turn a `lookup_ip` outcome into a
result envelope.  A successful lookup with zero records is an error; a
non-empty one is a success envelope carrying the address strings and their
count. -/
def dnsLookupResult (res : Except String (List String)) : DnsResult :=
  match res with
  | Except.ok addresses =>
      if addresses.isEmpty then create_dns_error "No addresses found"
      else { addresses := some addresses, count := addresses.length, error := none }
  | Except.error e => create_dns_error ("DNS lookup failed: " ++ e)

/-- Source `dns_resolve`: decode hostname, collect parseable nameserver
IPs, create the runtime, construct the resolver (system or custom), run
the lookup. -/
def dns_resolve (env : DnsEnv) (hostname : Option String)
    (dns_servers : List (Option String)) : DnsResult :=
  match hostname with
  | none => create_dns_error "Invalid hostname encoding"
  | some host =>
    let ips := dnsServerIps env dns_servers
    if env.runtimeOk then
      match resolverChoice env ips with
      | Except.error e => create_dns_error ("Failed to create system resolver: " ++ e)
      | Except.ok spec => dnsLookupResult (env.lookup_ip spec host)
    else create_dns_error "Failed to create runtime"

/-- Source `dns_resolve_simple`: decode hostname, create the runtime,
always construct the system resolver, run the lookup.  Note its resolver
construction error message differs textually from the one in
`dns_resolve` ("Failed to create resolver" vs "Failed to create system
resolver"). -/
def dns_resolve_simple (env : DnsEnv) (hostname : Option String) : DnsResult :=
  match hostname with
  | none => create_dns_error "Invalid hostname encoding"
  | some host =>
    if env.runtimeOk then
      match env.systemConf with
      | Except.error e => create_dns_error ("Failed to create resolver: " ++ e)
      | Except.ok _ => dnsLookupResult (env.lookup_ip ResolverSpec.systemConf host)
    else create_dns_error "Failed to create runtime"

/-- The `HttpResponse` result envelope (`body` and `error` nullable). -/
structure HttpResponse where
  body : Option String
  status_code : Nat
  error : Option String
deriving DecidableEq, Repr

/-- Source `create_http_error`: null body, given status, owned error string. -/
def create_http_error (message : String) (status : Nat) : HttpResponse :=
  { body := none, status_code := status, error := some message }

/-- The caller-built `HttpRequest` descriptor.  `headers` models the
`headers_count` header-line pointers (each nullable / possibly invalid
UTF-8); `body` models the `body` pointer (`none` = null) whose pointed-to
region of `body_len` bytes is the byte list. -/
structure HttpRequest where
  url : Option String
  method : Option String
  headers : List (Option String)
  body : Option (List Nat)
  timeout_ms : Nat

/-- Rust `str::split_once` on a character list: split at the first
occurrence of `c`, returning the parts before and after it. -/
def splitOnceChars (c : Char) : List Char → Option (List Char × List Char)
  | [] => none
  | x :: xs =>
    if x = c then some ([], xs)
    else
      match splitOnceChars c xs with
      | some (l, r) => some (x :: l, r)
      | none => none

/-- Rust `str::split_once` on strings. -/
def splitOnce (s : String) (c : Char) : Option (String × String) :=
  match splitOnceChars c s.data with
  | some (l, r) => some (l.asString, r.asString)
  | none => none

/-- The header loop of `http_request_execute`: for each header line that
decodes as text and contains a colon, attach the (trimmed key, trimmed
value) pair; lines that fail to decode or have no colon are skipped. -/
def parseHeaders (headers : List (Option String)) : List (String × String) :=
  headers.filterMap (fun h =>
    match h with
    | some s =>
      match splitOnce s ':' with
      | some (key, value) => some (key.trim, value.trim)
      | none => none
    | none => none)

/-- Whether a string contains U+0000, i.e. whether its UTF-8 bytes contain
an embedded null byte, the exact failure condition of `CString::new`. -/
def hasNullByte (s : String) : Bool :=
  s.data.any (fun ch => ch = Char.ofNat 0)

/-- The body attachment condition of `http_request_execute`: the body is
attached only when the pointer is non-null and `body_len > 0` (the list
models the `body_len`-byte region, so its length is `body_len`). -/
def attachedBody (r : HttpRequest) : Option (List Nat) :=
  match r.body with
  | some bytes => if bytes.length > 0 then some bytes else none
  | none => none

/-- Method dispatch of `http_request_execute`: the six-way `match` on the
method string selects the corresponding request builder; the builder is
modelled by recording the method string in the built request, so the
dispatch collapses to membership in the supported set. -/
def methodSupported (m : String) : Bool :=
  m == "GET" || m == "POST" || m == "PUT" || m == "DELETE" || m == "PATCH" || m == "HEAD"

/-- The fully built request handed to `reqwest`: method, url, attached
(parsed, trimmed) headers, attached body bytes, client timeout. -/
structure BuiltRequest where
  method : String
  url : String
  headers : List (String × String)
  body : Option (List Nat)
  timeout_ms : Nat

/-- Build the `reqwest` request exactly as the source does after method
dispatch: run the header loop, attach the body when present. -/
def builtRequestOf (r : HttpRequest) (url method : String) : BuiltRequest :=
  { method := method
    url := url
    headers := parseHeaders r.headers
    body := attachedBody r
    timeout_ms := r.timeout_ms }

/-- Environment for the HTTP operation: runtime construction outcome,
client construction outcome for a given timeout, and the outcome of
sending a built request (an error, or a status code paired with the
outcome of `response.text()`). -/
structure HttpEnv where
  runtimeOk : Bool
  clientBuild : Nat → Except String Unit
  send : BuiltRequest → Except String (Nat × Except String String)

/-- Tail of `http_request_execute` after a status was received: read the
body text; a read failure or an embedded null byte is an error envelope
carrying the received status. -/
def httpTextStage (status : Nat) (t : Except String String) : HttpResponse :=
  match t with
  | Except.error e => create_http_error ("Failed to read response: " ++ e) status
  | Except.ok body =>
    if hasNullByte body then create_http_error "Response contains null bytes" status
    else { body := some body, status_code := status, error := none }

/-- Send stage of `http_request_execute`: a send failure is an error with
status 0; otherwise process the received response. -/
def httpSendStage (env : HttpEnv) (breq : BuiltRequest) : HttpResponse :=
  match env.send breq with
  | Except.error e => create_http_error ("Request failed: " ++ e) 0
  | Except.ok (status, t) => httpTextStage status t

/-- Source `http_request_execute`: null-request check, URL decode, method
decode, runtime construction, client construction with the given timeout,
method dispatch, then header/body attachment and send. -/
def http_request_execute (env : HttpEnv) (request : Option HttpRequest) : HttpResponse :=
  match request with
  | none => create_http_error "Null request" 0
  | some r =>
    match r.url with
    | none => create_http_error "Invalid URL encoding" 0
    | some url =>
      match r.method with
      | none => create_http_error "Invalid method encoding" 0
      | some method =>
        if env.runtimeOk then
          match env.clientBuild r.timeout_ms with
          | Except.error e => create_http_error ("Failed to create client: " ++ e) 0
          | Except.ok _ =>
            if methodSupported method then
              httpSendStage env (builtRequestOf r url method)
            else create_http_error "Unsupported HTTP method" 0
        else create_http_error "Failed to create runtime" 0

/-- One deallocation performed by a free entry point: dropping a
`CString`, dropping the boxed pointer array of a given length, or
dropping the outer boxed struct. -/
inductive FreeAction
  | cstr (s : String)
  | array (n : Nat)
  | box
deriving DecidableEq, Repr

/-- Memory view of a `DnsResult` as `dns_result_free` sees it: the
address array elements are themselves nullable (the list models the
`count`-element region behind the array pointer). -/
structure DnsResultMem where
  addresses : Option (List (Option String))
  count : Nat
  error : Option String

/-- Source `dns_result_free`: null argument is a no-op; otherwise free the
error string if non-null, each non-null address string of the
reconstructed `count`-element vector, the array allocation, and the outer
box. -/
def dns_result_free (result : Option DnsResultMem) : List FreeAction :=
  match result with
  | none => []
  | some r =>
    (match r.error with
     | some e => [FreeAction.cstr e]
     | none => [])
    ++ (match r.addresses with
        | some arr => arr.filterMap (fun a => a.map FreeAction.cstr) ++ [FreeAction.array r.count]
        | none => [])
    ++ [FreeAction.box]

/-- Source `http_response_free`: null argument is a no-op; otherwise free
the body string if non-null, the error string if non-null, and the outer
box. -/
def http_response_free (response : Option HttpResponse) : List FreeAction :=
  match response with
  | none => []
  | some r =>
    (match r.body with
     | some b => [FreeAction.cstr b]
     | none => [])
    ++ (match r.error with
        | some e => [FreeAction.cstr e]
        | none => [])
    ++ [FreeAction.box]

/-- Source `free_cstring`: free the string only when the pointer is
non-null. -/
def free_cstring (ptr : Option String) : List FreeAction :=
  match ptr with
  | none => []
  | some s => [FreeAction.cstr s]

/-- Environment for the unix-socket probe: whether `UnixStream::connect`
succeeds for a given path. -/
structure UnixEnv where
  connectOk : String → Bool

/-- Source `unix_socket_connect` (unix cfg): invalid path encoding or a
failed connect yields -1; a successful connect (stream dropped at once)
yields 0. -/
def unix_socket_connect (env : UnixEnv) (path : Option String) : Int :=
  match path with
  | none => -1
  | some p => if env.connectOk p then 0 else -1

/-- Source `unix_socket_connect` (non-unix cfg): always the sentinel -2. -/
def unix_socket_connect_nonunix (path : Option String) : Int :=
  match path with
  | _ => -2

/-! Helper lemmas shared by the claim theorems. -/

/-- Every `dnsLookupResult` envelope has exactly one of payload and error. -/
lemma aux_dnsLookupResult_exclusive (res : Except String (List String)) :
    ((dnsLookupResult res).addresses.isSome ∧ (dnsLookupResult res).error = none) ∨
      ((dnsLookupResult res).addresses = none ∧ (dnsLookupResult res).error.isSome) := by
  cases res with
  | error e => simp [dnsLookupResult, create_dns_error]
  | ok l =>
    cases hl : l.isEmpty with
    | true => simp [dnsLookupResult, hl, create_dns_error]
    | false => simp [dnsLookupResult, hl]

/-- Every `dns_resolve` envelope has exactly one of payload and error. -/
lemma aux_dns_resolve_exclusive (env : DnsEnv) (h : Option String)
    (servers : List (Option String)) :
    ((dns_resolve env h servers).addresses.isSome ∧ (dns_resolve env h servers).error = none) ∨
      ((dns_resolve env h servers).addresses = none ∧ (dns_resolve env h servers).error.isSome) := by
  cases h with
  | none => simp [dns_resolve, create_dns_error]
  | some host =>
    simp only [dns_resolve]
    cases hrt : env.runtimeOk with
    | false => simp [hrt, create_dns_error]
    | true =>
      simp only [hrt, if_true]
      cases hc : resolverChoice env (dnsServerIps env servers) with
      | error e => simp [create_dns_error]
      | ok spec => exact aux_dnsLookupResult_exclusive _

/-- Every `dns_resolve_simple` envelope has exactly one of payload and error. -/
lemma aux_dns_simple_exclusive (env : DnsEnv) (h : Option String) :
    ((dns_resolve_simple env h).addresses.isSome ∧ (dns_resolve_simple env h).error = none) ∨
      ((dns_resolve_simple env h).addresses = none ∧ (dns_resolve_simple env h).error.isSome) := by
  cases h with
  | none => simp [dns_resolve_simple, create_dns_error]
  | some host =>
    simp only [dns_resolve_simple]
    cases hrt : env.runtimeOk with
    | false => simp [hrt, create_dns_error]
    | true =>
      simp only [hrt, if_true]
      cases hc : env.systemConf with
      | error e => simp [create_dns_error]
      | ok u => exact aux_dnsLookupResult_exclusive _

/-- Every `httpTextStage` envelope has exactly one of body and error. -/
lemma aux_httpTextStage_exclusive (status : Nat) (t : Except String String) :
    ((httpTextStage status t).body.isSome ∧ (httpTextStage status t).error = none) ∨
      ((httpTextStage status t).body = none ∧ (httpTextStage status t).error.isSome) := by
  cases t with
  | error e => simp [httpTextStage, create_http_error]
  | ok body =>
    cases hnb : hasNullByte body with
    | true => simp [httpTextStage, hnb, create_http_error]
    | false => simp [httpTextStage, hnb]

/-- Every `httpSendStage` envelope has exactly one of body and error. -/
lemma aux_httpSendStage_exclusive (env : HttpEnv) (breq : BuiltRequest) :
    ((httpSendStage env breq).body.isSome ∧ (httpSendStage env breq).error = none) ∨
      ((httpSendStage env breq).body = none ∧ (httpSendStage env breq).error.isSome) := by
  cases hs : env.send breq with
  | error e => simp [httpSendStage, hs, create_http_error]
  | ok p =>
    rcases p with ⟨status, t⟩
    simp only [httpSendStage, hs]
    exact aux_httpTextStage_exclusive status t

/-- Every `http_request_execute` envelope has exactly one of body and error. -/
lemma aux_http_execute_exclusive (env : HttpEnv) (req : Option HttpRequest) :
    ((http_request_execute env req).body.isSome ∧ (http_request_execute env req).error = none) ∨
      ((http_request_execute env req).body = none ∧ (http_request_execute env req).error.isSome) := by
  cases req with
  | none => simp [http_request_execute, create_http_error]
  | some r =>
    rcases r with ⟨u, mm, hs, b, t⟩
    cases u with
    | none => simp [http_request_execute, create_http_error]
    | some url =>
      cases mm with
      | none => simp [http_request_execute, create_http_error]
      | some meth =>
        simp only [http_request_execute]
        cases hrt : env.runtimeOk with
        | false => simp [hrt, create_http_error]
        | true =>
          simp only [hrt, if_true]
          cases hc : env.clientBuild t with
          | error ce => simp [create_http_error]
          | ok u' =>
            cases hms : methodSupported meth with
            | false => simp [hms, create_http_error]
            | true =>
              simp only [hms, if_true]
              exact aux_httpSendStage_exclusive env _

/-- C1: for every result envelope returned by `dns_resolve`,
`dns_resolve_simple`, or `http_request_execute`, exactly one of the error
field and the success payload (addresses for DNS, body for HTTP) is
non-null. -/
theorem dns_http_result_exclusive :
    ∀ (denv : DnsEnv) (henv : HttpEnv) (h : Option String)
      (servers : List (Option String)) (req : Option HttpRequest),
      (((dns_resolve denv h servers).addresses.isSome ∧
          (dns_resolve denv h servers).error = none) ∨
        ((dns_resolve denv h servers).addresses = none ∧
          (dns_resolve denv h servers).error.isSome)) ∧
      (((dns_resolve_simple denv h).addresses.isSome ∧
          (dns_resolve_simple denv h).error = none) ∨
        ((dns_resolve_simple denv h).addresses = none ∧
          (dns_resolve_simple denv h).error.isSome)) ∧
      (((http_request_execute henv req).body.isSome ∧
          (http_request_execute henv req).error = none) ∨
        ((http_request_execute henv req).body = none ∧
          (http_request_execute henv req).error.isSome)) :=
  fun denv henv h servers req =>
    ⟨aux_dns_resolve_exclusive denv h servers,
     aux_dns_simple_exclusive denv h,
     aux_http_execute_exclusive henv req⟩

/-- C5: each of `dns_result_free`, `http_response_free`, and
`free_cstring`, called with a null pointer, performs no deallocation and
returns normally. -/
theorem free_null_noop :
    dns_result_free none = [] ∧ http_response_free none = [] ∧ free_cstring none = [] :=
  ⟨rfl, rfl, rfl⟩

/-- C9: `unix_socket_connect` returns 0 when the connect probe succeeds
and -1 on any failure (failed connect or invalid path encoding) on unix
platforms; the non-unix variant always returns -2. -/
theorem unix_socket_connect_status :
    ∀ (env : UnixEnv) (p : String) (q : Option String),
      (env.connectOk p = true → unix_socket_connect env (some p) = 0) ∧
      (env.connectOk p = false → unix_socket_connect env (some p) = -1) ∧
      unix_socket_connect env none = -1 ∧
      unix_socket_connect_nonunix q = -2 := by
  intro env p q
  refine ⟨?_, ?_, rfl, rfl⟩ <;> intro hc <;> simp [unix_socket_connect, hc]

/-- Witness for C9 at concrete environments and paths. -/
theorem unix_socket_connect_status_instance :
    unix_socket_connect ⟨fun _ => true⟩ (some "/var/run/docker.sock") = 0 ∧
    unix_socket_connect ⟨fun _ => false⟩ (some "/nonexistent.sock") = -1 :=
  ⟨(unix_socket_connect_status ⟨fun _ => true⟩ "/var/run/docker.sock" none).1 rfl,
   (unix_socket_connect_status ⟨fun _ => false⟩ "/nonexistent.sock" none).2.1 rfl⟩

/-- Either the two DNS entry points agree exactly, or both fail at
resolver construction wrapping the same underlying message. -/
lemma aux_simple_equiv (env : DnsEnv) (h : Option String) :
    dns_resolve env h [] = dns_resolve_simple env h ∨
      ∃ e, env.systemConf = Except.error e ∧
        dns_resolve env h [] = create_dns_error ("Failed to create system resolver: " ++ e) ∧
        dns_resolve_simple env h = create_dns_error ("Failed to create resolver: " ++ e) := by
  cases h with
  | none => left; rfl
  | some host =>
    cases hrt : env.runtimeOk with
    | false => left; simp [dns_resolve, dns_resolve_simple, hrt]
    | true =>
      cases hsc : env.systemConf with
      | ok u =>
        left
        simp [dns_resolve, dns_resolve_simple, hrt, dnsServerIps, resolverChoice, hsc]
      | error e =>
        right
        refine ⟨e, rfl, ?_, ?_⟩ <;>
          simp [dns_resolve, dns_resolve_simple, hrt, dnsServerIps, resolverChoice, hsc]

/-- C8: `dns_resolve_simple hostname` and `dns_resolve hostname` with no
nameservers produce envelopes with the same success/error structure and
the same error class on each failure path (the envelopes are equal
everywhere except resolver-construction failure, where both carry a
resolver-construction error wrapping the same underlying message). -/
theorem dns_resolve_simple_equiv :
    ∀ (env : DnsEnv) (h : Option String),
      (dns_resolve env h [] = dns_resolve_simple env h ∨
        ∃ e, env.systemConf = Except.error e ∧
          dns_resolve env h [] = create_dns_error ("Failed to create system resolver: " ++ e) ∧
          dns_resolve_simple env h = create_dns_error ("Failed to create resolver: " ++ e)) ∧
      (dns_resolve env h []).addresses = (dns_resolve_simple env h).addresses ∧
      (dns_resolve env h []).count = (dns_resolve_simple env h).count ∧
      ((dns_resolve env h []).error = none ↔ (dns_resolve_simple env h).error = none) := by
  intro env h
  rcases hd : aux_simple_equiv env h with heq | ⟨e, he, h1, h2⟩
  · exact ⟨Or.inl heq, by rw [heq], by rw [heq], by rw [heq]⟩
  · refine ⟨Or.inr ⟨e, he, h1, h2⟩, ?_, ?_, ?_⟩ <;> simp [h1, h2, create_dns_error]

/-- Environment observing which resolver `dns_resolve` consults: IP
parsing always fails, the system resolver exists, and only a lookup on
the system resolver succeeds. -/
def cexDnsEnv : DnsEnv :=
  { parseIp := fun _ => none
    runtimeOk := true
    systemConf := Except.ok ()
    lookup_ip := fun spec _ =>
      match spec with
      | ResolverSpec.systemConf => Except.ok ["192.0.2.1"]
      | ResolverSpec.custom _ _ => Except.error "custom resolver consulted" }

/-- C2 counterexample: a call with one (malformed) nameserver, hence a
non-zero nameserver count, nevertheless constructs the system-configured
resolver and succeeds through a system lookup, contradicting the claim
that the system resolver is used only when no nameservers are given. -/
theorem dns_system_fallback_cex :
    ([some "not-an-ip"] : List (Option String)).length ≠ 0 ∧
    resolverChoice cexDnsEnv (dnsServerIps cexDnsEnv [some "not-an-ip"]) =
      Except.ok ResolverSpec.systemConf ∧
    dns_resolve cexDnsEnv (some "example.com") [some "not-an-ip"] =
      { addresses := some ["192.0.2.1"], count := 1, error := none } :=
  ⟨by decide, rfl, rfl⟩

/-- The count guard of `dns_server_ips` is redundant: the collected IPs
are always the filter-mapped list. -/
lemma aux_dnsServerIps_eq (env : DnsEnv) (l : List (Option String)) :
    dnsServerIps env l = l.filterMap (fun s => s.bind env.parseIp) := by
  cases l <;> simp [dnsServerIps]

/-- C2 (amended): malformed nameserver entries are silently skipped
without failing the call; when at least one given nameserver parses, the
resolver is restricted to exactly the parseable ones (UDP, port 53,
default options, negative-response caching, no TLS name) with no use of
system configuration; the system-configured resolver is used exactly when
no parseable nameserver exists (no nameservers given, or all of them
malformed). -/
theorem dns_nameserver_policy :
    ∀ (env : DnsEnv) (pre post : List (Option String)) (bad : Option String)
      (servers : List (Option String)) (host : String),
      (bad.bind env.parseIp = none →
        dnsServerIps env (pre ++ bad :: post) = dnsServerIps env (pre ++ post)) ∧
      (bad.bind env.parseIp = none →
        dns_resolve env (some host) (pre ++ bad :: post) =
          dns_resolve env (some host) (pre ++ post)) ∧
      (env.runtimeOk = true → dnsServerIps env servers ≠ [] →
        dns_resolve env (some host) servers =
          dnsLookupResult
            (env.lookup_ip
              (ResolverSpec.custom ((dnsServerIps env servers).map nameServerFor)
                ResolverOpts.default) host)) ∧
      (∀ ns ∈ (dnsServerIps env servers).map nameServerFor,
        ns.protocol = Protocol.Udp ∧ ns.socket_addr.2 = 53 ∧
          ns.trust_negative_responses = true ∧ ns.tls_dns_name = none) ∧
      (env.runtimeOk = true → dnsServerIps env servers = [] →
        dns_resolve env (some host) servers =
          (match env.systemConf with
           | Except.error e => create_dns_error ("Failed to create system resolver: " ++ e)
           | Except.ok _ => dnsLookupResult (env.lookup_ip ResolverSpec.systemConf host))) := by
  intro env pre post bad servers host
  have hskip : bad.bind env.parseIp = none →
      dnsServerIps env (pre ++ bad :: post) = dnsServerIps env (pre ++ post) := by
    intro hbad
    rw [aux_dnsServerIps_eq, aux_dnsServerIps_eq]
    simp [List.filterMap_append, List.filterMap_cons, hbad]
  refine ⟨hskip, ?_, ?_, ?_, ?_⟩
  · intro hbad
    simp only [dns_resolve, hskip hbad]
  · intro hrt hne
    have hie : (dnsServerIps env servers).isEmpty = false := by
      simpa [List.isEmpty_iff] using hne
    simp [dns_resolve, hrt, resolverChoice, hie]
  · intro ns hns
    rcases List.mem_map.mp hns with ⟨ip, _, rfl⟩
    exact ⟨rfl, rfl, rfl, rfl⟩
  · intro hrt hnil
    simp only [dns_resolve, hrt, if_true, hnil]
    cases hsc : env.systemConf <;> simp [resolverChoice, hsc]

/-- Environment for the C2 witness: exactly one of the two supplied
nameserver strings parses as an IP. -/
def wDnsEnv : DnsEnv :=
  { parseIp := fun s => if s = "10.0.0.1" then some (IpAddr.v4 10 0 0 1) else none
    runtimeOk := true
    systemConf := Except.ok ()
    lookup_ip := fun _ _ => Except.ok ["10.0.0.9"] }

/-- Witness for C2 (amended): with one malformed and one parseable
nameserver, the call resolves through the custom resolver built from the
single parseable nameserver. -/
theorem dns_nameserver_policy_instance :
    dns_resolve wDnsEnv (some "example.com") [some "zz", some "10.0.0.1"] =
      dnsLookupResult
        (wDnsEnv.lookup_ip
          (ResolverSpec.custom
            ((dnsServerIps wDnsEnv [some "zz", some "10.0.0.1"]).map nameServerFor)
            ResolverOpts.default) "example.com") :=
  (dns_nameserver_policy wDnsEnv [] [] none [some "zz", some "10.0.0.1"]
      "example.com").2.2.1 rfl (by decide)

/-- A success envelope from `dnsLookupResult` carries at least one
address. -/
lemma aux_dnsLookupResult_success (res : Except String (List String)) :
    (dnsLookupResult res).error = none →
      1 ≤ (dnsLookupResult res).count ∧
        ∃ l, (dnsLookupResult res).addresses = some l ∧ l ≠ [] := by
  cases res with
  | error e => simp [dnsLookupResult, create_dns_error]
  | ok l =>
    cases l with
    | nil => simp [dnsLookupResult, create_dns_error]
    | cons a as =>
      intro _
      refine ⟨by simp [dnsLookupResult], a :: as, by simp [dnsLookupResult], by simp⟩

/-- C6: a lookup that succeeds with zero records yields the
"No addresses found" error envelope in both DNS entry points, and every
success envelope carries a count of at least 1 and a non-empty address
list. -/
theorem dns_empty_lookup_error :
    ∀ (env : DnsEnv) (h : Option String) (servers : List (Option String))
      (host : String) (spec : ResolverSpec),
      ((dns_resolve env h servers).error = none →
        1 ≤ (dns_resolve env h servers).count ∧
          ∃ l, (dns_resolve env h servers).addresses = some l ∧ l ≠ []) ∧
      ((dns_resolve_simple env h).error = none →
        1 ≤ (dns_resolve_simple env h).count ∧
          ∃ l, (dns_resolve_simple env h).addresses = some l ∧ l ≠ []) ∧
      (env.runtimeOk = true →
        resolverChoice env (dnsServerIps env servers) = Except.ok spec →
        env.lookup_ip spec host = Except.ok [] →
        dns_resolve env (some host) servers = create_dns_error "No addresses found") ∧
      (env.runtimeOk = true → env.systemConf = Except.ok () →
        env.lookup_ip ResolverSpec.systemConf host = Except.ok [] →
        dns_resolve_simple env (some host) = create_dns_error "No addresses found") := by
  intro env h servers host spec
  refine ⟨?_, ?_, ?_, ?_⟩
  · cases h with
    | none => simp [dns_resolve, create_dns_error]
    | some host' =>
      simp only [dns_resolve]
      cases hrt : env.runtimeOk with
      | false => simp [create_dns_error]
      | true =>
        simp only [if_true]
        cases hc : resolverChoice env (dnsServerIps env servers) with
        | error e => simp [create_dns_error]
        | ok sp => exact aux_dnsLookupResult_success _
  · cases h with
    | none => simp [dns_resolve_simple, create_dns_error]
    | some host' =>
      simp only [dns_resolve_simple]
      cases hrt : env.runtimeOk with
      | false => simp [create_dns_error]
      | true =>
        simp only [if_true]
        cases hsc : env.systemConf with
        | error e => simp [create_dns_error]
        | ok u => exact aux_dnsLookupResult_success _
  · intro hrt hchoice hlook
    simp [dns_resolve, hrt, hchoice, hlook, dnsLookupResult]
  · intro hrt hsc hlook
    simp [dns_resolve_simple, hrt, hsc, hlook, dnsLookupResult]

/-- Environment whose every lookup succeeds with zero records. -/
def wDnsEnvEmpty : DnsEnv :=
  { parseIp := fun _ => none
    runtimeOk := true
    systemConf := Except.ok ()
    lookup_ip := fun _ _ => Except.ok [] }

/-- Witness for C6: a successful zero-record lookup produces the
"No addresses found" error envelope. -/
theorem dns_empty_lookup_error_instance :
    dns_resolve_simple wDnsEnvEmpty (some "empty.example") =
      create_dns_error "No addresses found" :=
  (dns_empty_lookup_error wDnsEnvEmpty none [] "empty.example"
      ResolverSpec.systemConf).2.2.2 rfl rfl rfl

/-- Execution reaches the send stage once the request is non-null, URL and
method decode, the runtime and client construct, and the method is
supported. -/
lemma aux_http_reach_send (env : HttpEnv) (r : HttpRequest) (url m : String)
    (hu : r.url = some url) (hm : r.method = some m) (hrt : env.runtimeOk = true)
    (hc : env.clientBuild r.timeout_ms = Except.ok ()) (hms : methodSupported m = true) :
    http_request_execute env (some r) = httpSendStage env (builtRequestOf r url m) := by
  simp [http_request_execute, hu, hm, hrt, hc, hms]

/-- Environment used by the HTTP counterexample and witnesses: everything
succeeds and the send yields a 200 response with body "ok". -/
def cexHttpEnv : HttpEnv :=
  { runtimeOk := true
    clientBuild := fun _ => Except.ok ()
    send := fun _ => Except.ok (200, Except.ok "ok") }

/-- Request whose URL bytes are invalid UTF-8 and whose method is the
well-formed but unsupported string "FOO". -/
def cexHttpReq : HttpRequest :=
  { url := none, method := some "FOO", headers := [], body := none, timeout_ms := 1000 }

/-- C3 counterexample: a call whose method string is valid text outside
the supported set, but whose URL bytes are invalid, returns the
"Invalid URL encoding" envelope, not the "Unsupported HTTP method" one:
the URL check precedes method dispatch. -/
theorem http_unsupported_method_cex :
    cexHttpReq.method = some "FOO" ∧
    methodSupported "FOO" = false ∧
    http_request_execute cexHttpEnv (some cexHttpReq) =
      create_http_error "Invalid URL encoding" 0 ∧
    (http_request_execute cexHttpEnv (some cexHttpReq)).error ≠
      some "Unsupported HTTP method" :=
  ⟨rfl, by decide, rfl, by decide⟩

/-- C3 (amended): when the call reaches method dispatch (non-null request,
URL and method decode as text, runtime and client construction succeed)
and the method is not exactly one of GET, POST, PUT, DELETE, PATCH, HEAD,
the envelope carries the "Unsupported HTTP method" error with status 0. -/
theorem http_unsupported_method :
    ∀ (env : HttpEnv) (r : HttpRequest) (url m : String),
      r.url = some url → r.method = some m → env.runtimeOk = true →
      env.clientBuild r.timeout_ms = Except.ok () → methodSupported m = false →
      http_request_execute env (some r) =
        { body := none, status_code := 0, error := some "Unsupported HTTP method" } := by
  intro env r url m hu hm hrt hc hms
  simp [http_request_execute, hu, hm, hrt, hc, hms, create_http_error]

/-- Witness for C3 (amended) at a concrete request with method "FOO". -/
theorem http_unsupported_method_instance :
    http_request_execute cexHttpEnv
        (some { url := some "http://localhost/v1/ping", method := some "FOO",
                headers := [], body := none, timeout_ms := 5 }) =
      { body := none, status_code := 0, error := some "Unsupported HTTP method" } :=
  http_unsupported_method cexHttpEnv
    { url := some "http://localhost/v1/ping", method := some "FOO",
      headers := [], body := none, timeout_ms := 5 }
    "http://localhost/v1/ping" "FOO" rfl rfl rfl rfl (by decide)

/-- C4: when the received response body text contains an embedded null
byte, the result is the error envelope with a null body and the received
status, never a success envelope. -/
theorem http_null_byte_body :
    ∀ (env : HttpEnv) (r : HttpRequest) (url m body : String) (status : Nat),
      r.url = some url → r.method = some m → env.runtimeOk = true →
      env.clientBuild r.timeout_ms = Except.ok () → methodSupported m = true →
      env.send (builtRequestOf r url m) = Except.ok (status, Except.ok body) →
      hasNullByte body = true →
      http_request_execute env (some r) =
        { body := none, status_code := status,
          error := some "Response contains null bytes" } := by
  intro env r url m body status hu hm hrt hc hms hsend hnull
  rw [aux_http_reach_send env r url m hu hm hrt hc hms]
  simp [httpSendStage, hsend, httpTextStage, hnull, create_http_error]

/-- Environment whose send yields a 200 response whose body text embeds a
null byte. -/
def wHttpEnvNull : HttpEnv :=
  { runtimeOk := true
    clientBuild := fun _ => Except.ok ()
    send := fun _ => Except.ok (200, Except.ok "ab\x00cd") }

/-- A well-formed GET request. -/
def wHttpReq : HttpRequest :=
  { url := some "http://localhost/x", method := some "GET", headers := [],
    body := none, timeout_ms := 100 }

/-- Witness for C4: body "ab\x00cd" produces the null-byte error envelope
carrying status 200. -/
theorem http_null_byte_body_instance :
    http_request_execute wHttpEnvNull (some wHttpReq) =
      { body := none, status_code := 200,
        error := some "Response contains null bytes" } :=
  http_null_byte_body wHttpEnvNull wHttpReq "http://localhost/x" "GET" "ab\x00cd" 200
    rfl rfl rfl rfl (by decide) rfl (by decide)

/-- The result of `http_request_execute` depends on the header lines only
through the parsed header pairs. -/
lemma aux_http_headers_only (env : HttpEnv) (r : HttpRequest)
    (A B : List (Option String)) (hAB : parseHeaders A = parseHeaders B) :
    http_request_execute env (some { r with headers := A }) =
      http_request_execute env (some { r with headers := B }) := by
  rcases r with ⟨u, mm, hs, b, t⟩
  cases u with
  | none => rfl
  | some url =>
    cases mm with
    | none => rfl
    | some meth =>
      simp only [http_request_execute, builtRequestOf, attachedBody]
      rw [hAB]

/-- C7: each header line containing a colon is attached as a header with
surrounding whitespace trimmed from name (text before the first colon)
and value; lines without a colon are dropped without affecting the other
headers and without changing the outcome of the call; the headers
attached to the sent request are exactly the parsed ones. -/
theorem http_header_handling :
    ∀ (env : HttpEnv) (r : HttpRequest) (pre post : List (Option String))
      (s k v url m : String),
      (splitOnce s ':' = none →
        parseHeaders (pre ++ some s :: post) = parseHeaders (pre ++ post)) ∧
      (splitOnce s ':' = none →
        http_request_execute env (some { r with headers := pre ++ some s :: post }) =
          http_request_execute env (some { r with headers := pre ++ post })) ∧
      (splitOnce s ':' = some (k, v) →
        parseHeaders (pre ++ some s :: post) =
          parseHeaders pre ++ (k.trim, v.trim) :: parseHeaders post) ∧
      (r.url = some url → r.method = some m → env.runtimeOk = true →
        env.clientBuild r.timeout_ms = Except.ok () → methodSupported m = true →
        http_request_execute env (some r) = httpSendStage env (builtRequestOf r url m) ∧
          (builtRequestOf r url m).headers = parseHeaders r.headers) := by
  intro env r pre post s k v url m
  have hdrop : splitOnce s ':' = none →
      parseHeaders (pre ++ some s :: post) = parseHeaders (pre ++ post) := by
    intro hsp
    simp [parseHeaders, List.filterMap_append, List.filterMap_cons, hsp]
  refine ⟨hdrop, ?_, ?_, ?_⟩
  · intro hsp
    exact aux_http_headers_only env r _ _ (hdrop hsp)
  · intro hsp
    simp [parseHeaders, List.filterMap_append, List.filterMap_cons, hsp]
  · intro hu hm hrt hc hms
    exact ⟨aux_http_reach_send env r url m hu hm hrt hc hms, rfl⟩

/-- Witness for C7: the colon-free line "nocolon" is dropped and the
remaining header lines parse to their trimmed pairs. -/
theorem http_header_handling_instance :
    parseHeaders ([some "Content-Type: application/json"] ++
        some "nocolon" :: [some " X-A :  b "]) =
      parseHeaders ([some "Content-Type: application/json"] ++ [some " X-A :  b "]) ∧
    parseHeaders ([] ++ some " X-A :  b " :: []) =
      parseHeaders [] ++ (" X-A ".trim, "  b ".trim) :: parseHeaders [] :=
  ⟨(http_header_handling cexHttpEnv cexHttpReq [some "Content-Type: application/json"]
      [some " X-A :  b "] "nocolon" "" "" "" "").1 (by decide),
   (http_header_handling cexHttpEnv cexHttpReq [] [] " X-A :  b " " X-A " "  b "
      "" "").2.2.1 (by decide)⟩

/-- A post-status error envelope is one of the two body-production
failures; its message determines the class. -/
lemma aux_httpTextStage_status (status : Nat) (t : Except String String) (msg : String) :
    (httpTextStage status t).error = some msg →
      msg = "Response contains null bytes" ∨
        ∃ e, msg = "Failed to read response: " ++ e := by
  cases t with
  | error e =>
    intro hmsg
    right
    refine ⟨e, ?_⟩
    have := hmsg
    simp [httpTextStage, create_http_error] at this
    exact this.symm
  | ok body =>
    cases hnb : hasNullByte body with
    | false => simp [httpTextStage, hnb]
    | true =>
      intro hmsg
      left
      simp [httpTextStage, hnb, create_http_error] at hmsg
      exact hmsg.symm

/-- Any `httpSendStage` error envelope with non-zero status is a
body-production failure. -/
lemma aux_httpSendStage_status (env : HttpEnv) (breq : BuiltRequest) (msg : String) :
    (httpSendStage env breq).error = some msg →
      (httpSendStage env breq).status_code ≠ 0 →
      msg = "Response contains null bytes" ∨
        ∃ e, msg = "Failed to read response: " ++ e := by
  cases hs : env.send breq with
  | error e => simp [httpSendStage, hs, create_http_error]
  | ok p =>
    rcases p with ⟨status, t⟩
    simp only [httpSendStage, hs]
    intro hmsg _
    exact aux_httpTextStage_status status t msg hmsg

/-- C10: both body-production failures after a status was received (a
body-read failure, and a received body text containing an embedded null
byte) produce an error envelope carrying the received status rather
than 0 — so a non-null error can coexist with a non-zero status — and
conversely every error envelope with a non-zero status comes from one
of these two post-status body-production failures; all pre-status
failures carry status 0. -/
theorem http_error_status_code :
    ∀ (env : HttpEnv) (req : Option HttpRequest) (msg : String) (r : HttpRequest)
      (url m e body : String) (status : Nat),
      ((http_request_execute env req).error = some msg →
        (http_request_execute env req).status_code ≠ 0 →
        msg = "Response contains null bytes" ∨
          ∃ t, msg = "Failed to read response: " ++ t) ∧
      (r.url = some url → r.method = some m → env.runtimeOk = true →
        env.clientBuild r.timeout_ms = Except.ok () → methodSupported m = true →
        env.send (builtRequestOf r url m) = Except.ok (status, Except.error e) →
        http_request_execute env (some r) =
          { body := none, status_code := status,
            error := some ("Failed to read response: " ++ e) }) ∧
      (r.url = some url → r.method = some m → env.runtimeOk = true →
        env.clientBuild r.timeout_ms = Except.ok () → methodSupported m = true →
        env.send (builtRequestOf r url m) = Except.ok (status, Except.ok body) →
        hasNullByte body = true →
        http_request_execute env (some r) =
          { body := none, status_code := status,
            error := some "Response contains null bytes" }) := by
  intro env req msg r url m e body status
  refine ⟨?_, ?_, ?_⟩
  · cases req with
    | none => simp [http_request_execute, create_http_error]
    | some r' =>
      rcases r' with ⟨u, mm, hs, b, t⟩
      cases u with
      | none => simp [http_request_execute, create_http_error]
      | some url' =>
        cases mm with
        | none => simp [http_request_execute, create_http_error]
        | some meth =>
          simp only [http_request_execute]
          cases hrt : env.runtimeOk with
          | false => simp [create_http_error]
          | true =>
            simp only [if_true]
            cases hc : env.clientBuild t with
            | error ce => simp [create_http_error]
            | ok u' =>
              cases hms : methodSupported meth with
              | false => simp [hms, create_http_error]
              | true =>
                simp only [hms, if_true]
                exact aux_httpSendStage_status env _ msg
  · intro hu hm hrt hc hms hsend
    rw [aux_http_reach_send env r url m hu hm hrt hc hms]
    simp [httpSendStage, hsend, httpTextStage, create_http_error]
  · intro hu hm hrt hc hms hsend hnull
    rw [aux_http_reach_send env r url m hu hm hrt hc hms]
    simp [httpSendStage, hsend, httpTextStage, hnull, create_http_error]

/-- Environment whose send yields a 404 response whose body read fails. -/
def wHttpEnvReadFail : HttpEnv :=
  { runtimeOk := true
    clientBuild := fun _ => Except.ok ()
    send := fun _ => Except.ok (404, Except.error "decode failure") }

/-- Environment whose send yields a 500 response whose body text embeds a
null byte. -/
def wHttpEnvNull500 : HttpEnv :=
  { runtimeOk := true
    clientBuild := fun _ => Except.ok ()
    send := fun _ => Except.ok (500, Except.ok "x\x00y") }

/-- Witness for C10: a body-read failure on a 404 response yields an
error envelope whose status is 404, not 0, and a null-byte body on a 500
response yields an error envelope whose status is 500, not 0. -/
theorem http_error_status_code_instance :
    (http_request_execute wHttpEnvReadFail (some wHttpReq) =
      { body := none, status_code := 404,
        error := some ("Failed to read response: " ++ "decode failure") }) ∧
    (http_request_execute wHttpEnvNull500 (some wHttpReq) =
      { body := none, status_code := 500,
        error := some "Response contains null bytes" }) :=
  ⟨(http_error_status_code wHttpEnvReadFail (some wHttpReq) "" wHttpReq
      "http://localhost/x" "GET" "decode failure" "" 404).2.1 rfl rfl rfl rfl (by decide) rfl,
   (http_error_status_code wHttpEnvNull500 (some wHttpReq) "" wHttpReq
      "http://localhost/x" "GET" "" "x\x00y" 500).2.2 rfl rfl rfl rfl (by decide) rfl (by decide)⟩
